import Mathlib

/-!
Verification of the HTTP client core of cutover-mcp
(src/cutover_mcp/clients/api.py and its lifecycle wiring in
src/cutover_mcp/app.py), shallowly embedded in Lean 4.

The embedding models:
  * `APIClient.request` (api.py lines 47-76): the bounded retry loop over a
    transport oracle giving the outcome of each network attempt;
  * `APIClient._get_client` (api.py lines 24-39): lazy construction of the
    connection context and its headers;
  * `APIClient.aclose` (api.py lines 41-45);
  * `APIClientManager.get_client` / `close_all` (api.py lines 88-106): the
    client pool keyed by the composite environment string;
  * the process-level wiring: the module-level singleton `client_mgr`
    (api.py line 110), the lifespan hook (app.py lines 22-33), and the tool
    modules resolving clients through `client_mgr` (e.g. runbooks.py line 22).

Machine integers do not occur; HTTP status codes are natural numbers.
-/

set_option autoImplicit false

namespace CutoverMCP

/-- Parsed JSON value. The executor treats response bodies opaquely apart from
the 204-maps-to-empty-object rule, so JSON is modelled as an opaque payload
with a distinguished empty object (the `{}` returned for 204 responses). -/
inductive Json where
  | emptyObj : Json
  | val : String → Json
deriving DecidableEq, Repr

/-- Outcome of one network attempt inside the try-block of
`APIClient.request` (api.py lines 60-65): either a transport-level failure
(httpx.RequestError) or an HTTP response with a status code and parsed body. -/
inductive AttemptOutcome where
  | netError : String → AttemptOutcome
  | response : Nat → Json → AttemptOutcome
deriving DecidableEq, Repr

/-- Exceptions that `APIClient.request` can raise: `httpx.RequestError`,
`httpx.HTTPStatusError` (carrying the response status and body), and the
sentinel `ConnectionError` raised after the loop (api.py line 76). -/
inductive ReqError where
  | requestError : String → ReqError
  | httpStatusError : Nat → Json → ReqError
  | connectionError : String → ReqError
deriving DecidableEq, Repr

/-- One iteration body of the try-block (api.py lines 60-68): perform the
attempt, apply `response.raise_for_status()` — which in httpx raises
`HTTPStatusError` for every status outside 200..299 — and on success map a
204 status to the empty JSON object and any other success to the parsed
body. -/
def attemptStep : AttemptOutcome → Except ReqError Json
  | .netError msg => .error (.requestError msg)
  | .response status body =>
      if 200 ≤ status ∧ status ≤ 299 then
        if status = 204 then .ok Json.emptyObj else .ok body
      else
        .error (.httpStatusError status body)

/-- The terminal-failure test of api.py line 70:
`isinstance(e, httpx.HTTPStatusError) and 400 <= e.response.status_code < 500`. -/
def isClientError : ReqError → Bool
  | .httpStatusError status _ => decide (400 ≤ status ∧ status < 500)
  | _ => false

/-- The exception an attempt outcome turns into when it fails. -/
def outcomeError : AttemptOutcome → ReqError
  | .netError msg => .requestError msg
  | .response status body => .httpStatusError status body

/-- An outcome that fails retryably: a network-level error, or an HTTP
response with status at least 500. -/
def retryableOutcome : AttemptOutcome → Bool
  | .netError _ => true
  | .response status _ => decide (500 ≤ status)

/-- Recognises the sentinel `ConnectionError` of api.py line 76. -/
def isSentinel : Except ReqError Json → Bool
  | .error (.connectionError _) => true
  | _ => false

/-- Recognises a `ConnectionError` value. -/
def isConnectionError : ReqError → Bool
  | .connectionError _ => true
  | _ => false

instance decEqExcept {ε : Type} {α : Type} [DecidableEq ε] [DecidableEq α] :
    DecidableEq (Except ε α) := fun x y =>
  match x, y with
  | .error a, .error b =>
      decidable_of_iff (a = b) (by simp)
  | .ok a, .ok b =>
      decidable_of_iff (a = b) (by simp)
  | .error _, .ok _ => isFalse (by simp)
  | .ok _, .error _ => isFalse (by simp)

/-- Observable result of one `APIClient.request` call: the returned value or
raised exception, the number of attempts entered, and the backoff sleeps
performed (in order, in time units). -/
structure RunResult where
  result : Except ReqError Json
  attemptsMade : Nat
  sleeps : List Nat
deriving DecidableEq, Repr

/-- Message of the sentinel raise at api.py line 76. -/
def sentinelMsg : String := "API request failed after multiple retries."

/-- The retry loop of api.py lines 58-76, iterating over the remaining values
of `range(3)`. Each iteration runs one attempt; on success it returns, on a
caught exception it re-raises when `attempt == 2` or the exception is a 4xx
`HTTPStatusError`, and otherwise sleeps `2 ** attempt` time units and
continues. Falling off the list reaches the sentinel raise of line 76. -/
def requestLoop (attempts : Nat → AttemptOutcome) :
    List Nat → Nat → List Nat → RunResult
  | [], made, sleeps =>
      { result := .error (.connectionError sentinelMsg),
        attemptsMade := made, sleeps := sleeps }
  | attempt :: rest, made, sleeps =>
      match attemptStep (attempts attempt) with
      | .ok v => { result := .ok v, attemptsMade := made + 1, sleeps := sleeps }
      | .error e =>
          if attempt = 2 ∨ isClientError e = true then
            { result := .error e, attemptsMade := made + 1, sleeps := sleeps }
          else
            requestLoop attempts rest (made + 1) (sleeps ++ [2 ^ attempt])

/-- `APIClient.request` (api.py lines 47-76) run against a transport oracle
`attempts` giving the outcome of each numbered network attempt. -/
def request (attempts : Nat → AttemptOutcome) : RunResult :=
  requestLoop attempts (List.range 3) 0 []

/-- Python truthiness of an optional string: `None` and the empty string are
falsy, every other string is truthy. -/
def pyTruthy : Option String → Bool
  | none => false
  | some s => if s = "" then false else true

/-- Python `str()` of an optional string, as an f-string renders it:
`None` becomes the literal text "None". -/
def pyStr : Option String → String
  | none => "None"
  | some s => s

/-- Python `s.rstrip("/")`: remove every trailing slash. -/
def rstripSlash (s : String) : String :=
  String.mk ((s.toList.reverse.dropWhile (fun c => c = '/')).reverse)

/-- The connection context (the configured `httpx.AsyncClient` of api.py
lines 35-38): request headers plus the uniform timeout. -/
structure ConnCtx where
  timeout : Nat
  headers : List (String × String)
deriving DecidableEq, Repr

/-- `APIClient` (api.py lines 11-45): one handle per credential set. `id`
models Python object identity (allocation number); `_client` is the lazily
built connection context. -/
structure APIClient where
  base_url : String
  api_key : String
  timeout : Nat
  core_url : Option String
  _client : Option ConnCtx
  id : Nat
deriving DecidableEq, Repr

/-- `APIClient.__init__` (api.py lines 17-22): strips trailing slashes from
the base URL and starts with no connection context. `fresh` is the identity
of the newly allocated object. -/
def APIClient.create (base_url api_key : String) (timeout : Nat)
    (core_url : Option String) (fresh : Nat) : APIClient :=
  { base_url := rstripSlash base_url, api_key := api_key, timeout := timeout,
    core_url := core_url, _client := none, id := fresh }

/-- `APIClient._get_client` (api.py lines 24-39): return the cached
connection context, or build one carrying the four fixed headers plus — only
when `self.core_url` is truthy — the `Core-Url` header, and cache it.
Returns the context together with the (possibly mutated) handle. -/
def APIClient._get_client (c : APIClient) : ConnCtx × APIClient :=
  match c._client with
  | some ctx => (ctx, c)
  | none =>
      let fixed : List (String × String) :=
        [("Accept", "application/json"),
         ("Content-Type", "application/json"),
         ("User-Agent", "CutoverMCP/0.3.0"),
         ("Authorization", "Bearer " ++ c.api_key)]
      let headers :=
        if pyTruthy c.core_url then fixed ++ [("Core-Url", c.core_url.getD "")]
        else fixed
      let ctx : ConnCtx := { timeout := c.timeout, headers := headers }
      (ctx, { c with _client := some ctx })

/-- `APIClient.aclose` (api.py lines 41-45): if a connection context exists,
release it and clear the reference. Returns the updated handle and the
context that was released, if any. -/
def APIClient.aclose (c : APIClient) : APIClient × Option ConnCtx :=
  match c._client with
  | some ctx => ({ c with _client := none }, some ctx)
  | none => (c, none)

/-- `APIClientManager` (api.py lines 79-106): the pool dictionary, modelled
as an association list in insertion order. -/
structure APIClientManager where
  _clients : List (String × APIClient)
deriving DecidableEq, Repr

/-- Python dict lookup on the pool: the entry stored under `key`, if any. -/
def dictGet (key : String) : List (String × APIClient) → Option APIClient
  | [] => none
  | kc :: rest => if kc.1 = key then some kc.2 else dictGet key rest

/-- The composite pool key of api.py line 97:
the f-string `base_url + "|" + api_key + "|" + str(core_url)`, where an
unset `core_url` renders as the literal text "None". -/
def clientKey (base_url api_key : String) (core_url : Option String) : String :=
  base_url ++ "|" ++ api_key ++ "|" ++ pyStr core_url

/-- The three environment values read by `APIClientManager.get_client`
(api.py lines 90-92): CUTOVER_BASE_URL, CUTOVER_API_TOKEN, CUTOVER_CORE_URL.
`none` models an unset variable. -/
structure Env where
  base_url : Option String
  api_token : Option String
  core_url : Option String
deriving DecidableEq, BEq, Repr

/-- The pool key `get_client` computes for a given environment. -/
def envKey (env : Env) : String :=
  clientKey (pyStr env.base_url) (pyStr env.api_token) env.core_url

/-- `APIClientManager.get_client` (api.py lines 88-100): re-read the
environment, raise `ValueError` when either required value is falsy,
otherwise return the pooled client for the composite key, allocating and
storing a new one when absent. `fresh` is the next allocation identity;
returns the client, the updated pool and the next identity. -/
def APIClientManager.get_client (env : Env) (m : APIClientManager)
    (fresh : Nat) : Except String (APIClient × APIClientManager × Nat) :=
  let base_url := env.base_url
  let api_key := env.api_token
  let core_url := env.core_url
  if !(pyTruthy base_url) || !(pyTruthy api_key) then
    .error "CUTOVER_BASE_URL and CUTOVER_API_TOKEN must be set."
  else
    let key := clientKey (pyStr base_url) (pyStr api_key) core_url
    match dictGet key m._clients with
    | some c => .ok (c, m, fresh)
    | none =>
        let c := APIClient.create (pyStr base_url) (pyStr api_key) 30
          core_url fresh
        .ok (c, ⟨m._clients ++ [(key, c)]⟩, fresh + 1)

/-- The loop of `APIClientManager.close_all` (api.py lines 104-105): await
`aclose()` on every pooled client, collecting the connection contexts that
get released. -/
def closeLoop : List (String × APIClient) → List ConnCtx
  | [] => []
  | kc :: rest =>
      match kc.2.aclose with
      | (_, some ctx) => ctx :: closeLoop rest
      | (_, none) => closeLoop rest

/-- `APIClientManager.close_all` (api.py lines 102-106): close every pooled
client, then clear the dictionary. Returns the emptied pool and the list of
released connection contexts. -/
def APIClientManager.close_all (m : APIClientManager) :
    APIClientManager × List ConnCtx :=
  (⟨[]⟩, closeLoop m._clients)

/-- Calling `aclose()` on the handle stored under `key`: since Python holds
the pooled handles by reference, the mutation is visible through the pool
entry. -/
def closeClientAt (key : String) (m : APIClientManager) : APIClientManager :=
  ⟨m._clients.map (fun kc => if kc.1 = key then (kc.1, (kc.2.aclose).1) else kc)⟩

/-- Process-level state of the running server: the heap of
`APIClientManager` instances allocated so far (keyed by allocation
identity), the module-level reference `client_mgr` (api.py line 110), the
`server.state.client_manager` reference written by the lifespan hook
(app.py line 27), and the allocation counters. -/
structure Process where
  managers : List (Nat × APIClientManager)
  clientMgrRef : Option Nat
  stateMgrRef : Option Nat
  nextMgrId : Nat
  nextClientId : Nat
deriving DecidableEq, Repr

/-- A freshly started interpreter: nothing imported yet. -/
def Process.empty : Process :=
  { managers := [], clientMgrRef := none, stateMgrRef := none,
    nextMgrId := 0, nextClientId := 0 }

/-- Allocate one `APIClientManager()` instance on the heap. -/
def Process.allocManager (p : Process) : Nat × Process :=
  (p.nextMgrId,
   { p with managers := p.managers ++ [(p.nextMgrId, ⟨[]⟩)],
            nextMgrId := p.nextMgrId + 1 })

/-- Importing `cutover_mcp.clients.api` runs the module body
`client_mgr = APIClientManager()` (api.py line 110). -/
def Process.importApi (p : Process) : Process :=
  let ip := p.allocManager
  { ip.2 with clientMgrRef := some ip.1 }

/-- Entering `app_lifespan` runs `client_manager = APIClientManager()` and
`server.state.client_manager = client_manager` (app.py lines 26-27). -/
def Process.lifespanStart (p : Process) : Process :=
  let ip := p.allocManager
  { ip.2 with stateMgrRef := some ip.1 }

/-- The manager instance a reference designates (empty if dangling). -/
def Process.managerAt (p : Process) (r : Option Nat) : APIClientManager :=
  match r with
  | some i => (List.lookup i p.managers).getD ⟨[]⟩
  | none => ⟨[]⟩

/-- Write back a mutated manager instance through a reference. -/
def Process.setManagerAt (p : Process) (r : Option Nat)
    (m : APIClientManager) : Process :=
  match r with
  | some i =>
      { p with managers :=
          p.managers.map (fun im => if im.1 = i then (im.1, m) else im) }
  | none => p

/-- A tool call resolving its client, e.g. `get_runbook_by_id`
(runbooks.py line 22): `client = client_mgr.get_client()` goes through the
module-level singleton, never through `server.state.client_manager`. -/
def Process.toolResolveClient (env : Env) (p : Process) :
    Except String (APIClient × Process) :=
  match APIClientManager.get_client env (p.managerAt p.clientMgrRef)
      p.nextClientId with
  | .error e => .error e
  | .ok (c, m, fresh) =>
      .ok (c, { p.setManagerAt p.clientMgrRef m with nextClientId := fresh })

/-- The first request on a pooled handle builds its connection context in
place (`APIClient._get_client`, reached from `APIClient.request` line 55);
the mutation is visible through the pool entry of the module-level manager. -/
def Process.buildCtxAt (key : String) (p : Process) : Process :=
  let m := p.managerAt p.clientMgrRef
  p.setManagerAt p.clientMgrRef
    ⟨m._clients.map (fun kc =>
      if kc.1 = key then (kc.1, (kc.2._get_client).2) else kc)⟩

/-- Exiting `app_lifespan` runs `await client_manager.close_all()` on the
lifespan-local manager (app.py line 30). Returns the new process state and
the connection contexts that the shutdown released. -/
def Process.shutdown (p : Process) : Process × List ConnCtx :=
  let mr := (p.managerAt p.stateMgrRef).close_all
  (p.setManagerAt p.stateMgrRef mr.1, mr.2)

/-- Server startup: the app module imports `cutover_mcp.clients.api`, then
the lifespan hook runs its startup half (app.py lines 22-28). -/
def startedProcess : Process :=
  Process.lifespanStart (Process.importApi Process.empty)

/-- A well-formed environment for concrete runs. -/
def wEnv : Env :=
  { base_url := some "https://x.test", api_token := some "tok",
    core_url := none }

/-- The process after one tool call resolved a client through `client_mgr`. -/
def afterToolCall : Process :=
  match Process.toolResolveClient wEnv startedProcess with
  | .ok cp => cp.2
  | .error _ => startedProcess

/-- The process after that client's first request built its connection
context in place. -/
def afterFirstRequest : Process :=
  Process.buildCtxAt (envKey wEnv) afterToolCall

/-- The client allocated by a first lookup under `wEnv`. -/
def wClient : APIClient := APIClient.create "https://x.test" "tok" 30 none 0

/-- The pool after that first lookup. -/
def wPool : APIClientManager := ⟨[(envKey wEnv, wClient)]⟩

/-- An environment whose API token is set to the empty string. -/
def wBadEnv : Env :=
  { base_url := some "https://x.test", api_token := some "", core_url := none }

/-- Credential environment with the routing header unset. -/
def envNoCore : Env :=
  { base_url := some "b", api_token := some "k", core_url := none }

/-- Credential environment with the routing header set to the literal
string "None". -/
def envLitNone : Env :=
  { base_url := some "b", api_token := some "k", core_url := some "None" }

/-- Credential environment with the routing header set to the empty
string. -/
def envEmptyCore : Env :=
  { base_url := some "b", api_token := some "k", core_url := some "" }

/-- The client allocated by a first lookup under `envNoCore`. -/
def conflClient : APIClient := APIClient.create "b" "k" 30 none 0

/-- The pool after that first lookup. -/
def conflPool : APIClientManager := ⟨[(clientKey "b" "k" none, conflClient)]⟩

/-- The client a lookup under `envEmptyCore` allocates after `conflPool`. -/
def isoClient2 : APIClient := APIClient.create "b" "k" 30 (some "") 1

/-- The pool holding the `envNoCore` and `envEmptyCore` clients. -/
def isoPool2 : APIClientManager :=
  ⟨[(clientKey "b" "k" none, conflClient),
    (clientKey "b" "k" (some ""), isoClient2)]⟩

/-- A handle whose routing value is the non-null empty string. -/
def emptyCoreClient : APIClient := APIClient.create "b" "k" 30 (some "") 0

/-- Modelled from the spec, amended: the connection-context headers are the
four fixed headers, plus a Core-Url header exactly when the routing value is
non-null and non-empty. Compared against `APIClient._get_client`. -/
def specContextHeaders (api_key : String) (core_url : Option String) :
    List (String × String) :=
  [("Accept", "application/json"),
   ("Content-Type", "application/json"),
   ("User-Agent", "CutoverMCP/0.3.0"),
   ("Authorization", "Bearer " ++ api_key)] ++
  (match core_url with
   | none => []
   | some s => if s = "" then [] else [("Core-Url", s)])

/-! ## Lemmas about one retry-loop iteration -/

theorem requestLoop_cons_ok {attempts : Nat → AttemptOutcome} {a : Nat}
    {rest : List Nat} {made : Nat} {sleeps : List Nat} {v : Json}
    (h : attemptStep (attempts a) = .ok v) :
    requestLoop attempts (a :: rest) made sleeps =
      { result := .ok v, attemptsMade := made + 1, sleeps := sleeps } := by
  simp [requestLoop, h]

theorem requestLoop_cons_raise {attempts : Nat → AttemptOutcome} {a : Nat}
    {rest : List Nat} {made : Nat} {sleeps : List Nat} {e : ReqError}
    (h : attemptStep (attempts a) = .error e)
    (hc : a = 2 ∨ isClientError e = true) :
    requestLoop attempts (a :: rest) made sleeps =
      { result := .error e, attemptsMade := made + 1, sleeps := sleeps } := by
  simp only [requestLoop, h]
  rw [if_pos hc]

theorem requestLoop_cons_retry {attempts : Nat → AttemptOutcome} {a : Nat}
    {rest : List Nat} {made : Nat} {sleeps : List Nat} {e : ReqError}
    (h : attemptStep (attempts a) = .error e)
    (ha : ¬ a = 2) (he : isClientError e = false) :
    requestLoop attempts (a :: rest) made sleeps =
      requestLoop attempts rest (made + 1) (sleeps ++ [2 ^ a]) := by
  simp only [requestLoop, h]
  rw [if_neg]
  simp [ha, he]

theorem attemptStep_retryable {o : AttemptOutcome}
    (h : retryableOutcome o = true) :
    attemptStep o = .error (outcomeError o) ∧
      isClientError (outcomeError o) = false := by
  cases o with
  | netError msg => exact ⟨rfl, rfl⟩
  | response s b =>
      have hs : 500 ≤ s := by simpa [retryableOutcome] using h
      constructor
      · simp only [attemptStep, outcomeError]
        rw [if_neg (by omega)]
      · simp only [outcomeError, isClientError, decide_eq_false_iff_not]
        omega

theorem attemptStep_success {s : Nat} {b : Json} (h2 : 200 ≤ s)
    (h3 : s ≤ 299) :
    attemptStep (.response s b) = .ok (if s = 204 then Json.emptyObj else b) := by
  simp only [attemptStep]
  rw [if_pos ⟨h2, h3⟩]
  by_cases h204 : s = 204 <;> simp [h204]

theorem attemptStep_no_sentinel {o : AttemptOutcome} {e : ReqError}
    (h : attemptStep o = .error e) : isSentinel (Except.error e) = false := by
  cases o with
  | netError msg =>
      have he : ReqError.requestError msg = e := by
        simpa [attemptStep] using h
      subst he
      rfl
  | response s b =>
      by_cases hok : 200 ≤ s ∧ s ≤ 299
      · exfalso
        by_cases h204 : s = 204 <;> simp [attemptStep, hok, h204] at h
      · have he : ReqError.httpStatusError s b = e := by
          simpa [attemptStep, hok] using h
        subst he
        rfl

/-- C1: a request whose attempts all fail retryably (network error or
status ≥ 500) is attempted exactly 3 times, with sleeps of 1 and 2 time
units before the 2nd and 3rd attempts, and raises the last attempt's
error. -/
theorem request_retry_exhaustion (attempts : Nat → AttemptOutcome)
    (h : ∀ i, i < 3 → retryableOutcome (attempts i) = true) :
    request attempts =
      { result := .error (outcomeError (attempts 2)), attemptsMade := 3,
        sleeps := [1, 2] } := by
  obtain ⟨e0, t0⟩ := attemptStep_retryable (h 0 (by omega))
  obtain ⟨e1, t1⟩ := attemptStep_retryable (h 1 (by omega))
  obtain ⟨e2, t2⟩ := attemptStep_retryable (h 2 (by omega))
  show requestLoop attempts [0, 1, 2] 0 [] = _
  rw [requestLoop_cons_retry e0 (by omega) t0,
      requestLoop_cons_retry e1 (by omega) t1,
      requestLoop_cons_raise e2 (Or.inl rfl)]
  rfl

/-- Witness for C1: the constantly-refused transport. -/
theorem request_retry_exhaustion_witness :
    request (fun _ => AttemptOutcome.netError "refused") =
      { result := Except.error (ReqError.requestError "refused"),
        attemptsMade := 3, sleeps := [1, 2] } :=
  request_retry_exhaustion (fun _ => AttemptOutcome.netError "refused")
    (fun _ _ => rfl)

/-- C2: an attempt answered with a 4xx status is terminal: the
`HTTPStatusError` is raised at once and no further attempt is made, so a
first-attempt 4xx means exactly one attempt. -/
theorem request_no_retry_on_4xx (attempts : Nat → AttemptOutcome)
    (i s : Nat) (b : Json) (hi : i < 3)
    (hpre : ∀ j, j < i → retryableOutcome (attempts j) = true)
    (hresp : attempts i = .response s b) (h4 : 400 ≤ s) (h5 : s < 500) :
    (request attempts).attemptsMade = i + 1 ∧
    (request attempts).result = .error (.httpStatusError s b) := by
  have hstep : attemptStep (attempts i) = .error (.httpStatusError s b) := by
    rw [hresp]
    simp only [attemptStep]
    rw [if_neg (by omega)]
  have hterm : isClientError (ReqError.httpStatusError s b) = true := by
    simp [isClientError]
    omega
  interval_cases i
  · rw [show request attempts = requestLoop attempts [0, 1, 2] 0 [] from rfl,
        requestLoop_cons_raise hstep (Or.inr hterm)]
    exact ⟨rfl, rfl⟩
  · obtain ⟨e0, t0⟩ := attemptStep_retryable (hpre 0 (by omega))
    rw [show request attempts = requestLoop attempts [0, 1, 2] 0 [] from rfl,
        requestLoop_cons_retry e0 (by omega) t0,
        requestLoop_cons_raise hstep (Or.inr hterm)]
    exact ⟨rfl, rfl⟩
  · obtain ⟨e0, t0⟩ := attemptStep_retryable (hpre 0 (by omega))
    obtain ⟨e1, t1⟩ := attemptStep_retryable (hpre 1 (by omega))
    rw [show request attempts = requestLoop attempts [0, 1, 2] 0 [] from rfl,
        requestLoop_cons_retry e0 (by omega) t0,
        requestLoop_cons_retry e1 (by omega) t1,
        requestLoop_cons_raise hstep (Or.inl rfl)]
    exact ⟨rfl, rfl⟩

/-- Witness for C2: a 404 on the first attempt is attempted exactly once. -/
theorem request_no_retry_on_4xx_witness :
    (request (fun _ => AttemptOutcome.response 404 (Json.val "nf"))).attemptsMade = 1 ∧
    (request (fun _ => AttemptOutcome.response 404 (Json.val "nf"))).result =
      Except.error (ReqError.httpStatusError 404 (Json.val "nf")) :=
  request_no_retry_on_4xx (fun _ => AttemptOutcome.response 404 (Json.val "nf"))
    0 404 (Json.val "nf") (by omega) (fun j hj => absurd hj (by omega)) rfl
    (by omega) (by omega)

/-- C7: a successful (2xx) attempt determines the result by status code:
204 yields the empty JSON object and every other 2xx yields the parsed
body. -/
theorem request_success_mapping (attempts : Nat → AttemptOutcome)
    (i s : Nat) (b : Json) (hi : i < 3)
    (hpre : ∀ j, j < i → retryableOutcome (attempts j) = true)
    (hresp : attempts i = .response s b) (h2 : 200 ≤ s) (h3 : s ≤ 299) :
    (request attempts).result = .ok (if s = 204 then Json.emptyObj else b) := by
  have hstep : attemptStep (attempts i) =
      .ok (if s = 204 then Json.emptyObj else b) := by
    rw [hresp]
    exact attemptStep_success h2 h3
  interval_cases i
  · rw [show request attempts = requestLoop attempts [0, 1, 2] 0 [] from rfl,
        requestLoop_cons_ok hstep]
  · obtain ⟨e0, t0⟩ := attemptStep_retryable (hpre 0 (by omega))
    rw [show request attempts = requestLoop attempts [0, 1, 2] 0 [] from rfl,
        requestLoop_cons_retry e0 (by omega) t0,
        requestLoop_cons_ok hstep]
  · obtain ⟨e0, t0⟩ := attemptStep_retryable (hpre 0 (by omega))
    obtain ⟨e1, t1⟩ := attemptStep_retryable (hpre 1 (by omega))
    rw [show request attempts = requestLoop attempts [0, 1, 2] 0 [] from rfl,
        requestLoop_cons_retry e0 (by omega) t0,
        requestLoop_cons_retry e1 (by omega) t1,
        requestLoop_cons_ok hstep]

/-- Witness for C7: a first-attempt 204 yields the empty JSON object. -/
theorem request_success_mapping_witness :
    (request (fun _ => AttemptOutcome.response 204 (Json.val "unused"))).result =
      Except.ok Json.emptyObj := by
  have h := request_success_mapping
    (fun _ => AttemptOutcome.response 204 (Json.val "unused")) 0 204
    (Json.val "unused") (by omega) (fun j hj => absurd hj (by omega)) rfl
    (by omega) (by omega)
  simpa using h

/-- C8: the sentinel `ConnectionError` after the retry loop (api.py line
76) is unreachable: every execution of `request` returns or raises from
inside the loop, whatever the transport does. -/
theorem request_fallthrough_unreachable (attempts : Nat → AttemptOutcome) :
    isSentinel (request attempts).result = false := by
  show isSentinel (requestLoop attempts [0, 1, 2] 0 []).result = false
  rcases h0 : attemptStep (attempts 0) with e0 | v0
  case ok => rw [requestLoop_cons_ok h0]; rfl
  case error =>
    cases t0 : isClientError e0 with
    | true =>
        rw [requestLoop_cons_raise h0 (Or.inr t0)]
        exact attemptStep_no_sentinel h0
    | false =>
        rw [requestLoop_cons_retry h0 (by omega) t0]
        rcases h1 : attemptStep (attempts 1) with e1 | v1
        case ok => rw [requestLoop_cons_ok h1]; rfl
        case error =>
          cases t1 : isClientError e1 with
          | true =>
              rw [requestLoop_cons_raise h1 (Or.inr t1)]
              exact attemptStep_no_sentinel h1
          | false =>
              rw [requestLoop_cons_retry h1 (by omega) t1]
              rcases h2 : attemptStep (attempts 2) with e2 | v2
              case ok => rw [requestLoop_cons_ok h2]; rfl
              case error =>
                rw [requestLoop_cons_raise h2 (Or.inl rfl)]
                exact attemptStep_no_sentinel h2

/-! ## Lemmas about the client pool -/

theorem dictGet_append_self {l : List (String × APIClient)} {k : String}
    {c : APIClient} (h : dictGet k l = none) :
    dictGet k (l ++ [(k, c)]) = some c := by
  induction l with
  | nil => simp [dictGet]
  | cons kc rest ih =>
      by_cases hk : kc.1 = k
      · simp [dictGet, hk] at h
      · simp only [dictGet, List.cons_append, if_neg hk] at h ⊢
        exact ih h

/-- Inversion of a successful `APIClientManager.get_client` call: the two
required values were truthy, and the returned client either was already
pooled under the computed key (pool and counter untouched) or was freshly
created and appended. -/
theorem get_client_ok_inv {env : Env} {m : APIClientManager} {fresh : Nat}
    {c : APIClient} {m' : APIClientManager} {fresh' : Nat}
    (h : APIClientManager.get_client env m fresh = .ok (c, m', fresh')) :
    pyTruthy env.base_url = true ∧ pyTruthy env.api_token = true ∧
    ((dictGet (envKey env) m._clients = some c ∧ m' = m ∧ fresh' = fresh) ∨
     (dictGet (envKey env) m._clients = none ∧
      c = APIClient.create (pyStr env.base_url) (pyStr env.api_token) 30
        env.core_url fresh ∧
      m' = ⟨m._clients ++ [(envKey env, c)]⟩ ∧ fresh' = fresh + 1)) := by
  simp only [APIClientManager.get_client] at h
  split at h
  · exact absurd h (by simp)
  · next hguard =>
      have hok : pyTruthy env.base_url = true ∧
          pyTruthy env.api_token = true := by
        revert hguard
        cases pyTruthy env.base_url <;> cases pyTruthy env.api_token <;> simp
      refine ⟨hok.1, hok.2, ?_⟩
      split at h
      · next c0 hlook =>
          left
          obtain ⟨hc, hm, hf⟩ : c0 = c ∧ m = m' ∧ fresh = fresh' := by
            simpa using h
          subst hc hm hf
          exact ⟨hlook, rfl, rfl⟩
      · next hlook =>
          right
          obtain ⟨hc, hm, hf⟩ :
              APIClient.create (pyStr env.base_url) (pyStr env.api_token) 30
                env.core_url fresh = c ∧
              (⟨m._clients ++
                [(clientKey (pyStr env.base_url) (pyStr env.api_token)
                    env.core_url,
                  APIClient.create (pyStr env.base_url) (pyStr env.api_token)
                    30 env.core_url fresh)]⟩ : APIClientManager) = m' ∧
              fresh + 1 = fresh' := by
            simpa using h
          subst hc hm hf
          exact ⟨hlook, rfl, rfl, rfl⟩

/-- C5: every pool lookup re-reads and re-validates the environment: for
every pool state, including one that already holds previously validated
clients, a lookup under an environment whose base URL or API token is unset
or empty raises the configuration `ValueError`; the error is raised outside
the executor's retry loop, so it is never retried. -/
theorem get_client_config_error (env : Env) (m : APIClientManager)
    (fresh : Nat)
    (h : pyTruthy env.base_url = false ∨ pyTruthy env.api_token = false) :
    APIClientManager.get_client env m fresh =
      .error "CUTOVER_BASE_URL and CUTOVER_API_TOKEN must be set." := by
  simp only [APIClientManager.get_client]
  rcases h with h | h <;> simp [h]

/-- Witness for C5: an empty API token is rejected even when the pool
already holds a previously validated client. -/
theorem get_client_config_error_witness :
    pyTruthy wBadEnv.api_token = false ∧
    APIClientManager.get_client wBadEnv wPool 1 =
      .error "CUTOVER_BASE_URL and CUTOVER_API_TOKEN must be set." :=
  ⟨by decide, get_client_config_error wBadEnv wPool 1 (Or.inr (by decide))⟩

/-- C6: pool lookups are idempotent: two sequential `get_client` calls under
the same environment state return the same client instance and leave the
pool and allocation counter unchanged after the first call. -/
theorem get_client_idempotent (env : Env) (m m1 m2 : APIClientManager)
    (f f1 f2 : Nat) (c1 c2 : APIClient)
    (h1 : APIClientManager.get_client env m f = .ok (c1, m1, f1))
    (h2 : APIClientManager.get_client env m1 f1 = .ok (c2, m2, f2)) :
    c2 = c1 ∧ m2 = m1 ∧ f2 = f1 := by
  obtain ⟨hb, ht, hcase1⟩ := get_client_ok_inv h1
  obtain ⟨_, _, hcase2⟩ := get_client_ok_inv h2
  rcases hcase1 with ⟨hl1, hm1, hf1⟩ | ⟨hl1, hc1, hm1, hf1⟩
  · subst hm1
    rcases hcase2 with ⟨hl2, hm2, hf2⟩ | ⟨hl2, _, _, _⟩
    · rw [hl1] at hl2
      exact ⟨(Option.some.injEq _ _ ▸ hl2).symm ▸ rfl, hm2, hf2⟩
    · rw [hl1] at hl2
      exact absurd hl2 (by simp)
  · subst hm1
    have hself : dictGet (envKey env) (m._clients ++ [(envKey env, c1)]) =
        some c1 := dictGet_append_self hl1
    rcases hcase2 with ⟨hl2, hm2, hf2⟩ | ⟨hl2, _, _, _⟩
    · rw [hself] at hl2
      exact ⟨(Option.some.injEq _ _ ▸ hl2).symm ▸ rfl, hm2, hf2⟩
    · rw [hself] at hl2
      exact absurd hl2 (by simp)

/-- Witness for C6: two sequential lookups under `wEnv` from the empty pool
both return the client allocated by the first. -/
theorem get_client_idempotent_witness :
    APIClientManager.get_client wEnv ⟨[]⟩ 0 = .ok (wClient, wPool, 1) ∧
    APIClientManager.get_client wEnv wPool 1 = .ok (wClient, wPool, 1) ∧
    (wClient = wClient ∧ wPool = wPool ∧ (1 : Nat) = 1) :=
  ⟨by decide, by decide,
   get_client_idempotent wEnv ⟨[]⟩ wPool wPool 0 1 1 wClient wClient
     (by decide) (by decide)⟩

/-- C3 counterexample: the credential set with the routing header unset and
the one with it set to the literal string "None" are distinct, yet the
string-encoded pool key conflates them, and the second lookup returns the
very client instance allocated for the first — the pool is silently merged,
refuting the claimed distinctness. -/
theorem pool_key_conflation :
    ((envNoCore == envLitNone) = false) ∧
    envKey envNoCore = envKey envLitNone ∧
    APIClientManager.get_client envNoCore ⟨[]⟩ 0 =
      .ok (conflClient, conflPool, 1) ∧
    APIClientManager.get_client envLitNone conflPool 1 =
      .ok (conflClient, conflPool, 1) := by
  refine ⟨by decide, by decide, by decide, by decide⟩

/-- C3 (amended): for two credential sets whose computed identity keys
differ — which holds for header-unset versus header-set-to-empty-string,
but not for header-unset versus header-set-to-the-literal-"None" — two
lookups from the empty pool return distinct handle instances, and closing
the first handle's connection context leaves the second handle's pool entry
untouched. -/
theorem pool_isolation (e1 e2 : Env) (c1 c2 : APIClient)
    (m1 m2 : APIClientManager) (f1 f2 : Nat)
    (hkey : envKey e1 ≠ envKey e2)
    (h1 : APIClientManager.get_client e1 ⟨[]⟩ 0 = .ok (c1, m1, f1))
    (h2 : APIClientManager.get_client e2 m1 f1 = .ok (c2, m2, f2)) :
    c1.id ≠ c2.id ∧
    dictGet (envKey e2) ((closeClientAt (envKey e1) m2)._clients) =
      some c2 := by
  obtain ⟨_, _, hcase1⟩ := get_client_ok_inv h1
  rcases hcase1 with ⟨hl1, _, _⟩ | ⟨hl1, hc1, hm1, hf1⟩
  · simp [dictGet] at hl1
  · subst hc1 hm1 hf1
    obtain ⟨_, _, hcase2⟩ := get_client_ok_inv h2
    rcases hcase2 with ⟨hl2, _, _⟩ | ⟨hl2, hc2, hm2, hf2⟩
    · simp [dictGet, hkey] at hl2
    · subst hc2 hm2 hf2
      refine ⟨by simp [APIClient.create], ?_⟩
      simp [closeClientAt, dictGet, hkey, Ne.symm hkey]

/-- Witness for C3 (amended): header-unset versus header-set-to-empty-string
yield distinct keys, distinct handles, and closing the first leaves the
second pooled untouched. -/
theorem pool_isolation_witness :
    conflClient.id ≠ isoClient2.id ∧
    dictGet (envKey envEmptyCore)
        ((closeClientAt (envKey envNoCore) isoPool2)._clients) =
      some isoClient2 :=
  pool_isolation envNoCore envEmptyCore conflClient isoClient2 conflPool
    isoPool2 1 2 (by decide) (by decide) (by decide)

/-! ## Teardown -/

theorem closeLoop_eq_filterMap (l : List (String × APIClient)) :
    closeLoop l = l.filterMap (fun kc => kc.2._client) := by
  induction l with
  | nil => rfl
  | cons kc rest ih =>
      cases hc : kc.2._client with
      | none =>
          simp [closeLoop, APIClient.aclose, hc, ih, List.filterMap_cons]
      | some ctx =>
          simp [closeLoop, APIClient.aclose, hc, ih, List.filterMap_cons]

/-- C9: on every pool state — empty, or holding clients that may never have
built a connection context — `close_all` completes, releases exactly the
connection contexts that were built, leaves the pool empty, and a second
call releases nothing and leaves the pool empty again (idempotence). -/
theorem close_all_spec (m : APIClientManager) :
    (m.close_all.1)._clients = [] ∧
    m.close_all.2 = m._clients.filterMap (fun kc => kc.2._client) ∧
    (m.close_all.1).close_all = (⟨[]⟩, []) :=
  ⟨rfl, closeLoop_eq_filterMap m._clients, rfl⟩

/-! ## Connection-context headers -/

/-- C10 counterexample: a handle whose routing value is the non-null empty
string builds its first connection context with no Core-Url header — the
truthiness test `if self.core_url:` drops it, refuting the claimed
"non-null empty-string yields a Core-Url header". -/
theorem core_url_empty_header_dropped :
    ((some "" == (none : Option String)) = false) ∧
    (emptyCoreClient._get_client).1.headers =
      [("Accept", "application/json"),
       ("Content-Type", "application/json"),
       ("User-Agent", "CutoverMCP/0.3.0"),
       ("Authorization", "Bearer k")] := by
  refine ⟨by decide, by decide⟩

/-- C10 (amended): the first build of a handle's connection context carries
exactly the four fixed headers, plus a Core-Url header exactly when the
routing value is non-null and non-empty — as `specContextHeaders`
prescribes — and the uniform timeout of the handle. -/
theorem first_context_headers (c : APIClient) (h : c._client = none) :
    (c._get_client).1.headers = specContextHeaders c.api_key c.core_url ∧
    (c._get_client).1.timeout = c.timeout := by
  refine ⟨?_, ?_⟩
  · simp only [APIClient._get_client, h, specContextHeaders]
    cases hc : c.core_url with
    | none => simp [pyTruthy]
    | some s => by_cases hs : s = "" <;> simp [pyTruthy, hs]
  · simp [APIClient._get_client, h]

/-- Witness for C10 (amended): a fresh handle with routing value "u" builds
headers matching the spec description. -/
theorem first_context_headers_witness :
    (APIClient.create "b" "k" 30 (some "u") 0)._client = none ∧
    ((APIClient.create "b" "k" 30 (some "u") 0)._get_client).1.headers =
      specContextHeaders "k" (some "u") :=
  ⟨rfl, (first_context_headers (APIClient.create "b" "k" 30 (some "u") 0)
    rfl).1⟩

/-! ## Lifecycle -/

/-- C4: refuted by the code — the pool reachable by tool callers is the
module-level `client_mgr` singleton, while the shutdown hook constructs and
closes a distinct `APIClientManager`; after a full start / tool-call /
first-request / shutdown run, the shutdown released no connection context
and the tools' pool still holds one client with a built (never released)
context. -/
theorem lifespan_closes_distinct_manager :
    ((startedProcess.clientMgrRef == startedProcess.stateMgrRef) = false) ∧
    (Process.shutdown afterFirstRequest).2 = [] ∧
    (((Process.shutdown afterFirstRequest).1.managerAt
        (Process.shutdown afterFirstRequest).1.clientMgrRef)._clients.filterMap
          (fun kc => kc.2._client)).length = 1 := by
  refine ⟨by decide, by decide, by decide⟩

end CutoverMCP
